import Mathlib

/-!
Shallow embedding of the Jumla-Bot LLM orchestration core
(`app/services/llm/client.py`, `app/services/llm/circuit_breaker.py`,
`app/services/llm/adapters/openai.py`, `app/services/rate_limiter.py`).

Modelling conventions:
* Wall-clock timestamps (Python `time.time()` floats) are modelled as `Int`
  seconds; Python float truthiness (`if self.last_failure_time:`) is modelled
  explicitly (`none` and `some 0` are both falsy).
* Python exceptions are modelled with `Except`: a raised exception is
  `Except.error`, a normal return is `Except.ok`.
* External libraries (the `json` module, `jsonschema.validate`) are passed in
  as opaque function parameters; the repository code around them is translated
  directly.
* Python dict values that may be absent or `None` are both modelled as `none`;
  string/number truthiness is modelled by the `optStrTruthy` / `optNatTruthy`
  helpers.
-/

namespace Jumla

/-- `LLMProvider` enum from `types.py`. -/
inductive LLMProvider where
  | openai
  | anthropic
  | gemini
  | mock
deriving DecidableEq, Repr

/-- The `.value` of an `LLMProvider` member (it is a `str` enum). -/
def LLMProvider.value : LLMProvider → String
  | .openai => "openai"
  | .anthropic => "anthropic"
  | .gemini => "gemini"
  | .mock => "mock"

/-- `ProviderStatus` enum from `types.py` (circuit breaker states). -/
inductive ProviderStatus where
  | healthy
  | degraded
  | failed
deriving DecidableEq, Repr

/-- `LLMResponse` dataclass from `types.py`.  `metadata` (a free-form dict or
`None`) is modelled as an association list, with `[]` standing for `None`. -/
structure LLMResponse where
  content : String
  provider : LLMProvider
  model : String
  prompt_tokens : Nat
  completion_tokens : Nat
  latency_ms : Nat
  cached : Bool := false
  metadata : List (String × String) := []
deriving DecidableEq, Repr

/-- Exceptions raised by a provider adapter (`exceptions.py`):
`CircuitBreakerOpenError`, `ProviderAPIError` (with provider name, message,
optional status code), and any other exception. -/
inductive ProviderError where
  | circuitOpen (msg : String)
  | apiError (provider : String) (msg : String) (status : Option Nat)
  | other (msg : String)
deriving DecidableEq, Repr

/-- `str(e)` for a provider error.  `ProviderAPIError.__init__` calls
`super().__init__(f"{provider}: {message}")`, so its string form is
`"provider: message"`. -/
def ProviderError.str : ProviderError → String
  | .circuitOpen m => m
  | .apiError p m _ => p ++ ": " ++ m
  | .other m => m

/-! ## Circuit breaker (`circuit_breaker.py`) -/

/-- Mutable state of `CircuitBreaker` plus its two configuration fields. -/
structure CircuitBreaker where
  failure_threshold : Nat
  recovery_timeout : Int
  failure_count : Nat
  last_failure_time : Option Int
  status : ProviderStatus
deriving DecidableEq, Repr

/-- `CircuitBreaker.__init__`: zero failures, no failure time, HEALTHY. -/
def mkCircuitBreaker (threshold : Nat) (timeout : Int) : CircuitBreaker :=
  { failure_threshold := threshold
    recovery_timeout := timeout
    failure_count := 0
    last_failure_time := none
    status := .healthy }

/-- `record_success`: resets the failure count and forces HEALTHY. -/
def record_success (cb : CircuitBreaker) : CircuitBreaker :=
  { cb with failure_count := 0, status := .healthy }

/-- `record_failure` at wall-clock time `now`: increments the count, stamps
`last_failure_time`, and opens the circuit once the threshold is reached. -/
def record_failure (cb : CircuitBreaker) (now : Int) : CircuitBreaker :=
  let c := cb.failure_count + 1
  { cb with
    failure_count := c
    last_failure_time := some now
    status := if cb.failure_threshold ≤ c then .failed else cb.status }

/-- Python truthiness of the `last_failure_time` field: `None` and `0.0` are
both falsy under `if self.last_failure_time:`. -/
def timeTruthy : Option Int → Bool
  | none => false
  | some t => t != 0

/-- `can_attempt` at wall-clock time `now`.  Returns the boolean result and
the (possibly updated) breaker: from FAILED, when the timestamp is truthy and
`now - last_failure_time >= recovery_timeout`, the state optimistically moves
to DEGRADED. -/
def can_attempt (cb : CircuitBreaker) (now : Int) : Bool × CircuitBreaker :=
  match cb.status with
  | .healthy => (true, cb)
  | .failed =>
    if timeTruthy cb.last_failure_time then
      if cb.recovery_timeout ≤ now - cb.last_failure_time.getD 0 then
        (true, { cb with status := .degraded })
      else
        (false, cb)
    else
      (false, cb)
  | .degraded => (true, cb)

/-- `reset`: administrative reset to the initial healthy state. -/
def reset (cb : CircuitBreaker) : CircuitBreaker :=
  { cb with failure_count := 0, last_failure_time := none, status := .healthy }

/-- The documented invariant: `status == FAILED` implies
`failure_count >= failure_threshold`. -/
def BreakerInv (cb : CircuitBreaker) : Prop :=
  cb.status = .failed → cb.failure_threshold ≤ cb.failure_count

/-- A run of consecutive `record_failure` calls (at the given timestamps)
with no intervening `record_success` or `reset`. -/
def applyFailures (cb : CircuitBreaker) (times : List Int) : CircuitBreaker :=
  times.foldl record_failure cb

/-! ## Prompt templates and `str.format` (`client.py::_safe_format_prompt`) -/

/-- A piece of a Python format template: literal text or a `{name}` field. -/
inductive TplPart where
  | lit (s : String)
  | ph (name : String)
deriving DecidableEq, Repr

/-- Keyword-argument lookup (Python `kwargs[name]`). -/
def kwLookup (kwargs : List (String × String)) (name : String) : Option String :=
  match kwargs with
  | [] => none
  | (k, v) :: rest => if k = name then some v else kwLookup rest name

/-- Python `template.format(**kwargs)`: fields are substituted left to right;
a `KeyError` (modelled as `Except.error` carrying the key) is raised at the
first field whose name is not among the kwargs. -/
def pythonFormat (tpl : List TplPart) (kwargs : List (String × String)) :
    Except String String :=
  match tpl with
  | [] => .ok ""
  | .lit s :: rest =>
    match pythonFormat rest kwargs with
    | .ok tail => .ok (s ++ tail)
    | .error k => .error k
  | .ph n :: rest =>
    match kwLookup kwargs n with
    | none => .error n
    | some v =>
      match pythonFormat rest kwargs with
      | .ok tail => .ok (v ++ tail)
      | .error k => .error k

/-- `LLMClient._safe_format_prompt`: try `format`; on `KeyError e`, set
`kwargs[str(e).strip("'")] = "not provided"` and format again.  A `KeyError`
raised by the second `format` call is not caught and propagates. -/
def safe_format_prompt (tpl : List TplPart) (kwargs : List (String × String)) :
    Except String String :=
  match pythonFormat tpl kwargs with
  | .ok s => .ok s
  | .error missing => pythonFormat tpl (kwargs ++ [(missing, "not provided")])

/-! ## Provider fallback (`client.py::_complete_with_fallback`) -/

/-- The client's adapter table (`self.adapters`), with each adapter's
`complete(prompt, system_prompt, ...)` call modelled as a function from the
prompt and optional system prompt to a result or raised exception.
`none` models a provider missing from the table. -/
def AdapterMap : Type :=
  LLMProvider → Option (String → Option String → Except ProviderError LLMResponse)

/-- The `AllProvidersFailedError` message built at the end of the loop:
`"All LLM providers failed. Errors: "` followed by the collected
`f"{p.value}: {e}"` pairs joined with `"; "`. -/
def allFailedMessage (errors : List (LLMProvider × String)) : String :=
  "All LLM providers failed. Errors: " ++
    String.intercalate "; " (errors.map fun pe => pe.1.value ++ ": " ++ pe.2)

/-- The loop of `_complete_with_fallback` over the remaining
`provider_priority`, carrying the `errors` accumulator.  Providers without an
adapter are skipped; the first successful `complete` returns immediately;
every raised exception (`CircuitBreakerOpenError`, `ProviderAPIError`, or any
other) appends `(provider, str(e))` and continues; exhaustion raises
`AllProvidersFailedError`. -/
def complete_with_fallback (adapters : AdapterMap) (prompt : String)
    (system_prompt : Option String) :
    List LLMProvider → List (LLMProvider × String) → Except String LLMResponse
  | [], errors => .error (allFailedMessage errors)
  | p :: rest, errors =>
    match adapters p with
    | none => complete_with_fallback adapters prompt system_prompt rest errors
    | some f =>
      match f prompt system_prompt with
      | .ok response => .ok response
      | .error e =>
        complete_with_fallback adapters prompt system_prompt rest
          (errors ++ [(p, e.str)])

/-- The providers whose adapter `complete` is actually invoked by the loop:
every provider with an adapter up to and including the first success. -/
def invoked_providers (adapters : AdapterMap) (prompt : String)
    (system_prompt : Option String) : List LLMProvider → List LLMProvider
  | [] => []
  | p :: rest =>
    match adapters p with
    | none => invoked_providers adapters prompt system_prompt rest
    | some f =>
      match f prompt system_prompt with
      | .ok _ => [p]
      | .error _ => p :: invoked_providers adapters prompt system_prompt rest

/-- The `(provider, str(e))` pairs the loop collects when no provider
succeeds (providers without adapters contribute nothing). -/
def failure_reasons (adapters : AdapterMap) (prompt : String)
    (system_prompt : Option String) : List LLMProvider → List (LLMProvider × String)
  | [] => []
  | p :: rest =>
    match adapters p with
    | none => failure_reasons adapters prompt system_prompt rest
    | some f =>
      match f prompt system_prompt with
      | .ok _ => []
      | .error e => (p, e.str) :: failure_reasons adapters prompt system_prompt rest

/-- A provider that contributes no success to the loop: either absent from
the adapter table, or its `complete` raises on this prompt. -/
def failsOrMissing (adapters : AdapterMap) (prompt : String)
    (system_prompt : Option String) (p : LLMProvider) : Prop :=
  adapters p = none ∨
    ∃ f e, adapters p = some f ∧ f prompt system_prompt = Except.error e

/-! ## OpenAI adapter error mapping (`adapters/openai.py::complete`) -/

/-- Outcome of the underlying OpenAI SDK call: a successful chat completion,
or one of the SDK exception classes (`AuthenticationError`, `RateLimitError`,
`APIError`, or any other exception). -/
inductive SDKOutcome where
  | success (content : String) (prompt_tokens completion_tokens : Nat)
      (finish_reason : String)
  | authError
  | rateLimitError
  | apiFault (msg : String) (status : Option Nat)
  | otherFault (msg : String)
deriving DecidableEq, Repr

/-- `OpenAIAdapter.complete`: checks the circuit breaker first
(`CircuitBreakerOpenError` when it denies the attempt), then maps each SDK
exception class to a `ProviderAPIError` — `AuthenticationError` becomes
`ProviderAPIError("OpenAI", "Invalid API key - please check your
OPENAI_API_KEY", 401)`, `RateLimitError` becomes status 429, and generic or
unexpected errors keep their message.  (The un-initialized-client guard is a
configuration-time concern and is outside this model.) -/
def openai_complete (canAttemptResult : Bool) (model : String)
    (outcome : SDKOutcome) (latency_ms : Nat) : Except ProviderError LLMResponse :=
  if !canAttemptResult then
    .error (.circuitOpen "OpenAI circuit breaker is open")
  else
    match outcome with
    | .success content ptok ctok finish =>
      .ok { content := content
            provider := .openai
            model := model
            prompt_tokens := ptok
            completion_tokens := ctok
            latency_ms := latency_ms
            metadata := [("finish_reason", finish)] }
    | .authError =>
      .error (.apiError "OpenAI"
        "Invalid API key - please check your OPENAI_API_KEY" (some 401))
    | .rateLimitError =>
      .error (.apiError "OpenAI"
        "Rate limit exceeded - try again in a moment" (some 429))
    | .apiFault msg status => .error (.apiError "OpenAI" msg status)
    | .otherFault msg => .error (.apiError "OpenAI" msg none)

/-! ## Extraction data model (`client.py::_get_empty_extraction_structure`)

The nested extraction dict has fixed sub-dicts `contact`, `property`,
`situation`, `intent`, `metadata`; leaf values are nullable strings, numbers
and booleans.  Numeric JSON leaves are modelled as naturals (`confidence`,
always the literal `0.0` in this code, as a rational). -/

/-- The `contact` sub-dict. -/
structure ContactInfo where
  name : Option String := none
  phone : Option String := none
  email : Option String := none
  preferred_contact_method : Option String := none
deriving DecidableEq, Repr

/-- The `property` sub-dict. -/
structure PropertyInfo where
  address : Option String := none
  city : Option String := none
  state : Option String := none
  zip_code : Option String := none
  property_type : Option String := none
  bedrooms : Option Nat := none
  bathrooms : Option Nat := none
  square_feet : Option Nat := none
  year_built : Option Nat := none
  condition : Option String := none
deriving DecidableEq, Repr

/-- The `situation` sub-dict. -/
structure SituationInfo where
  motivation : Option String := none
  urgency : Option String := none
  occupancy_status : Option String := none
  mortgage_status : Option String := none
  asking_price : Option Nat := none
  repairs_needed : Option String := none
  open_to_cash_offer : Option Bool := none
deriving DecidableEq, Repr

/-- The `intent` sub-dict. -/
structure IntentInfo where
  classification : String := "unclear"
  confidence : ℚ := 0
  next_action : Option String := none
deriving DecidableEq, Repr

/-- The `metadata` sub-dict. -/
structure MetaInfo where
  language : String := "en"
  sentiment : String := "neutral"
  contains_pii : Bool := false
  extraction_notes : String := ""
deriving DecidableEq, Repr

/-- The full extraction dict. -/
structure ExtractionData where
  contact : ContactInfo := {}
  property : PropertyInfo := {}
  situation : SituationInfo := {}
  intent : IntentInfo := {}
  metadata : MetaInfo := {}
deriving DecidableEq, Repr

/-- `ExtractionResult` dataclass from `types.py`. -/
structure ExtractionResult where
  data : ExtractionData
  validated : Bool
  validation_errors : Option (List String)
  llm_response : LLMResponse
deriving DecidableEq, Repr

/-- `_get_empty_extraction_structure`: every leaf null except the `intent`
and `metadata` defaults. -/
def get_empty_extraction_structure : ExtractionData :=
  { contact := {}
    property := {}
    situation := {}
    intent := { classification := "unclear", confidence := 0, next_action := none }
    metadata :=
      { language := "en"
        sentiment := "neutral"
        contains_pii := false
        extraction_notes := "Failed to extract data from message" } }

/-- `_create_fallback_extraction(reason)`: the empty structure with
`metadata.extraction_notes` overwritten, `validated=False`,
`validation_errors=[reason]`, and a synthetic `LLMResponse` whose content is
`json.dumps(data)` (the external `json` module is the `dumps` parameter). -/
def create_fallback_extraction (dumps : ExtractionData → String)
    (reason : String) : ExtractionResult :=
  let data :=
    { get_empty_extraction_structure with
      metadata :=
        { get_empty_extraction_structure.metadata with
          extraction_notes := "Extraction failed: " ++ reason } }
  { data := data
    validated := false
    validation_errors := some [reason]
    llm_response :=
      { content := dumps data
        provider := .openai
        model := "fallback"
        prompt_tokens := 0
        completion_tokens := 0
        latency_ms := 0 } }

/-! ## Truthiness and string helpers -/

/-- Python truthiness of a nullable string (`None` and `""` are falsy). -/
def optStrTruthy : Option String → Bool
  | none => false
  | some s => s != ""

/-- Python truthiness of a nullable number (`None` and `0` are falsy). -/
def optNatTruthy : Option Nat → Bool
  | none => false
  | some n => n != 0

/-- Python `x or y` for strings: `y` when `x` is empty. -/
def strOr (x y : String) : String :=
  if x = "" then y else x

/-- Whether `needle` occurs at the start of `hay` (on character lists). -/
def listHasPre : List Char → List Char → Bool
  | _, [] => true
  | [], _ :: _ => false
  | a :: as, b :: bs => a == b && listHasPre as bs

/-- Whether `needle` occurs anywhere in `hay` (on character lists). -/
def listHasSub (hay needle : List Char) : Bool :=
  match hay with
  | [] => needle.isEmpty
  | _ :: rest => listHasPre hay needle || listHasSub rest needle

/-- Python `needle in hay` for strings. -/
def strContainsSub (hay needle : String) : Bool :=
  listHasSub hay.toList needle.toList

/-- One conversation-history message (`{"role": ..., "content": ...}`). -/
structure Msg where
  role : String
  content : String
deriving DecidableEq, Repr

/-- `_format_history`: empty input gives `""`; otherwise the last 10
messages, one `"role: content"` line each. -/
def format_history (history : List Msg) : String :=
  match history with
  | [] => ""
  | _ :: _ =>
    let recent := history.drop (history.length - 10)
    String.intercalate "\n" (recent.map fun m => m.role ++ ": " ++ m.content)

/-! ## Orchestration client helpers (`client.py`) -/

/-- `_identify_missing_fields`.  A falsy `extracted_data` (`None` or an empty
dict, both modelled as `none`) short-circuits to the three-field list;
otherwise the checks use Python truthiness of the nested `.get` values. -/
def identify_missing_fields (extracted : Option ExtractionData) : List String :=
  match extracted with
  | none => ["address", "property_details", "timeline"]
  | some d =>
    (if !optStrTruthy d.property.address &&
        !(optStrTruthy d.property.city && optStrTruthy d.property.zip_code) then
      ["address"] else []) ++
    (if !optNatTruthy d.property.bedrooms || !optStrTruthy d.property.condition then
      ["property_details"] else []) ++
    (if !optStrTruthy d.situation.urgency then ["timeline"] else []) ++
    (if !optStrTruthy d.situation.motivation then ["motivation"] else [])

/-- The `payment_keywords` list of `_check_escalation_triggers`. -/
def payment_keywords : List String :=
  ["50%", "percent", "partial payment", "installment",
   "pay half", "split payment", "% now", "% later"]

/-- The `negotiation_keywords` list of `_check_escalation_triggers`. -/
def negotiation_keywords : List String :=
  ["negotiate", "discuss terms", "make a deal",
   "counter offer", "bargain", "legal", "contract"]

/-- `_check_escalation_triggers`: keyword families against the lower-cased
message, then the high asking-price check on the extracted situation. -/
def check_escalation_triggers (message : String)
    (extracted : Option ExtractionData) : Option String :=
  let message_lower := message.toLower
  if payment_keywords.any (fun k => strContainsSub message_lower k) then
    some "payment_terms"
  else if negotiation_keywords.any (fun k => strContainsSub message_lower k) then
    some "negotiation"
  else
    match extracted with
    | none => none
    | some d =>
      match d.situation.asking_price with
      | none => none
      | some ap =>
        if ap != 0 && decide (10000000 < ap) then some "price_review" else none

/-- `_should_confirm_details`: address (or city+zip) truthy, plus bedrooms
and condition present (`is not None`, not truthiness). -/
def should_confirm_details (extracted : Option ExtractionData) : Bool :=
  match extracted with
  | none => false
  | some d =>
    (optStrTruthy d.property.address ||
      (optStrTruthy d.property.city && optStrTruthy d.property.zip_code)) &&
    d.property.bedrooms.isSome && d.property.condition.isSome

/-- The canned negotiation escalation text. -/
def negotiationTemplate : String :=
  "I\x27ll connect you with an agent who can discuss those details. They\x27ll reach out shortly."

/-- `_create_escalation_response`: canned template per escalation type
(`templates.get(t, templates["negotiation"])`), placeholder provider OPENAI,
model `"template"`. -/
def create_escalation_response (escalation_type : String) : LLMResponse :=
  let content :=
    if escalation_type = "payment_terms" then
      "Thanks for that info — I\x27ll pass this to an agent who will review the payment terms and follow up within 24 hours."
    else if escalation_type = "negotiation" then
      negotiationTemplate
    else if escalation_type = "price_review" then
      "Thank you for the information. An agent will review your property details and reach out to discuss options."
    else
      negotiationTemplate
  { content := content
    provider := .openai
    model := "template"
    prompt_tokens := 0
    completion_tokens := 0
    latency_ms := 0
    metadata := [("escalation_type", escalation_type)] }

/-- `_create_confirmation_response`: echoes the truthy detail fields and the
best available address form back for confirmation. -/
def create_confirmation_response (d : ExtractionData) : LLMResponse :=
  let details_parts :=
    (if optNatTruthy d.property.bedrooms then
      [toString (d.property.bedrooms.getD 0) ++ " bedrooms"] else []) ++
    (if optNatTruthy d.property.bathrooms then
      [toString (d.property.bathrooms.getD 0) ++ " bathrooms"] else []) ++
    (if optStrTruthy d.property.condition then
      [d.property.condition.getD "" ++ " condition"] else [])
  let address :=
    if optStrTruthy d.property.address then d.property.address.getD ""
    else if optStrTruthy d.property.city && optStrTruthy d.property.state then
      d.property.city.getD "" ++ ", " ++ d.property.state.getD ""
    else "the property"
  let details :=
    match details_parts with
    | [] => "the details"
    | _ :: _ => String.intercalate ", " details_parts
  { content := "Let me confirm: " ++ details ++ " at " ++ address ++
      ". Is this correct? (Reply \x27yes\x27 to continue or provide corrections)"
    provider := .openai
    model := "template"
    prompt_tokens := 0
    completion_tokens := 0
    latency_ms := 0
    metadata := [("type", "confirmation")] }

/-- `_build_info_summary`: the accumulated-info summary recomputed from
`extracted_data`. -/
def build_info_summary (extracted : Option ExtractionData) : String :=
  match extracted with
  | none => "No information gathered yet"
  | some d =>
    let parts :=
      (if optStrTruthy d.contact.name then
        ["Name: " ++ d.contact.name.getD ""] else []) ++
      (if optStrTruthy d.contact.phone then
        ["Phone: " ++ d.contact.phone.getD ""] else []) ++
      (if optStrTruthy d.contact.email then
        ["Email: " ++ d.contact.email.getD ""] else []) ++
      (if optStrTruthy d.property.address then
        ["Address: " ++ d.property.address.getD ""]
      else if optStrTruthy d.property.city then
        ["City: " ++ d.property.city.getD ""] else []) ++
      (if optNatTruthy d.property.bedrooms then
        ["Bedrooms: " ++ toString (d.property.bedrooms.getD 0)] else []) ++
      (if optNatTruthy d.property.bathrooms then
        ["Bathrooms: " ++ toString (d.property.bathrooms.getD 0)] else []) ++
      (if optStrTruthy d.property.condition then
        ["Condition: " ++ d.property.condition.getD ""] else []) ++
      (if optStrTruthy d.situation.urgency then
        ["Timeline: " ++ d.situation.urgency.getD ""] else []) ++
      (if optStrTruthy d.situation.motivation then
        ["Motivation: " ++ d.situation.motivation.getD ""] else [])
    match parts with
    | [] => "Limited information provided"
    | _ :: _ => String.intercalate "; " parts

/-- `_create_smart_fallback_response`: the template reply used when the whole
fallback sequence fails during `generate_response`. -/
def create_smart_fallback_response (message : String)
    (extracted : Option ExtractionData) (missing_fields : List String) :
    LLMResponse :=
  let content :=
    match extracted with
    | some d =>
      if optStrTruthy d.property.address && missing_fields.contains "bedrooms" then
        "Got it! How many bedrooms does the property have?"
      else if optNatTruthy d.property.bedrooms && missing_fields.contains "condition" then
        "Thanks! What\x27s the overall condition? (Excellent / Good / Needs TLC / Major repairs)"
      else if missing_fields.contains "address" then
        "Thanks for reaching out! Could you share the property address?"
      else
        "Thanks! When are you looking to sell? (ASAP / 1-3 months / Flexible)"
    | none =>
      if strContainsSub message.toLower "address" ||
          message.toList.any Char.isDigit then
        "Thanks! How many bedrooms does the property have?"
      else
        "Thanks for reaching out! Could you share the property address?"
  { content := content
    provider := .openai
    model := "fallback"
    prompt_tokens := 0
    completion_tokens := 0
    latency_ms := 0
    metadata := [("fallback", "True")] }

/-- The module-level `SYSTEM_PROMPT` constant in `client.py`, used when the
prompt table has no `"system"` entry. -/
def systemPromptDefault : String :=
  "You are Jumla-bot, a friendly real estate assistant helping sellers get fast cash offers.\n\nGuidelines:\n- Be concise (1-2 sentences)\n- Ask for ONE piece of missing information at a time\n- Be empathetic if seller mentions urgency/distress\n- NEVER make offers or discuss pricing\n- If user mentions payment terms or wants to negotiate, say you\x27ll connect them with an agent"

/-- `prop.get(field, "not provided")` for a nullable numeric field, as it is
rendered into the reply prompt. -/
def natVarOr (o : Option Nat) : String :=
  match o with
  | some n => toString n
  | none => "not provided"

/-- The `prompt_vars` dict built inside `generate_response` (insertion
order preserved).  `info_summary` here is the recomputed summary. -/
def reply_prompt_vars (lead_stage info_summary history_text message : String)
    (extracted : Option ExtractionData) : List (String × String) :=
  let prop := match extracted with | some d => d.property | none => {}
  let situation := match extracted with | some d => d.situation | none => {}
  [("lead_status", lead_stage),
   ("info_summary", info_summary),
   ("conversation_history", strOr history_text "No prior conversation"),
   ("message", message),
   ("address", prop.address.getD "not provided"),
   ("beds", natVarOr prop.bedrooms),
   ("bedrooms", natVarOr prop.bedrooms),
   ("baths", natVarOr prop.bathrooms),
   ("bathrooms", natVarOr prop.bathrooms),
   ("condition", prop.condition.getD "not provided"),
   ("property_type", prop.property_type.getD "not provided"),
   ("urgency", situation.urgency.getD "not provided"),
   ("motivation", situation.motivation.getD "not provided")]

/-- The tail of `generate_response` after the two short-circuits: rebuild the
info summary from `extracted_data`, render the reply template, and run the
fallback sequence, falling back to the smart template reply when every
provider fails.  An uncaught `KeyError` from the second `format` attempt
propagates (`Except.error`). -/
def generate_response_llm (adapters : AdapterMap) (priority : List LLMProvider)
    (reply_tpl : List TplPart) (system_tpl : Option String)
    (message lead_stage history_text : String)
    (extracted : Option ExtractionData) (missing_fields : List String) :
    Except String LLMResponse :=
  let info_summary := build_info_summary extracted
  match safe_format_prompt reply_tpl
      (reply_prompt_vars lead_stage info_summary history_text message extracted) with
  | .error e => .error e
  | .ok prompt =>
    let system_prompt := system_tpl.getD systemPromptDefault
    match complete_with_fallback adapters prompt (some system_prompt) priority [] with
    | .ok response => .ok response
    | .error _ =>
      .ok (create_smart_fallback_response message extracted missing_fields)

/-- `generate_response(message, lead_stage, info_summary, history,
extracted_data)`.  The caller-supplied `info_summary` argument is shadowed by
the reassignment `info_summary = self._build_info_summary(extracted_data)`
(source line 413) before any use, which is why it does not appear in the
body past the binder. -/
def generate_response (adapters : AdapterMap) (priority : List LLMProvider)
    (reply_tpl : List TplPart) (system_tpl : Option String)
    (message lead_stage info_summary : String) (history : List Msg)
    (extracted : Option ExtractionData) : Except String LLMResponse :=
  let history_text := format_history history
  let missing_fields := identify_missing_fields extracted
  match check_escalation_triggers message extracted with
  | some escalation_type => .ok (create_escalation_response escalation_type)
  | none =>
    match extracted with
    | some d =>
      if should_confirm_details (some d) then
        .ok (create_confirmation_response d)
      else
        generate_response_llm adapters priority reply_tpl system_tpl
          message lead_stage history_text (some d) missing_fields
    | none =>
      generate_response_llm adapters priority reply_tpl system_tpl
        message lead_stage history_text none missing_fields

/-- The kwargs passed to `_safe_format_prompt` by `extract_lead_info`. -/
def extract_kwargs (message sender : String) (history : List Msg) :
    List (String × String) :=
  [("conversation_history", strOr (format_history history) "No prior conversation"),
   ("sender", sender),
   ("message", message)]

/-- `extract_lead_info(message, sender, history, lead_id)`.

`cacheResult` models the cache lookup of step 1 (`none` when no cache is
configured, no `lead_id` was given, or the key misses).  `parse` stands for
`_parse_json_safely` (the external `json` module), `validateData` for
`_validate_extraction` (the external `jsonschema` library), `dumps` for
`json.dumps`.  Only `AllProvidersFailedError` is caught around the fallback
sequence; a `KeyError` escaping `_safe_format_prompt` propagates. -/
def extract_lead_info (adapters : AdapterMap) (priority : List LLMProvider)
    (extract_tpl : List TplPart)
    (parse : String → Option ExtractionData)
    (validateData : ExtractionData → Bool × Option (List String))
    (dumps : ExtractionData → String)
    (cacheResult : Option ExtractionResult)
    (message sender : String) (history : List Msg) :
    Except String ExtractionResult :=
  match cacheResult with
  | some cached => .ok cached
  | none =>
    match safe_format_prompt extract_tpl (extract_kwargs message sender history) with
    | .error e => .error e
    | .ok prompt =>
      match complete_with_fallback adapters prompt none priority [] with
      | .error e => .ok (create_fallback_extraction dumps e)
      | .ok llm_response =>
        match parse llm_response.content with
        | none => .ok (create_fallback_extraction dumps "Invalid JSON response")
        | some data =>
          let v := validateData data
          .ok { data := data
                validated := v.1
                validation_errors := v.2
                llm_response := llm_response }

/-! ## Rate limiter (`rate_limiter.py`) -/

/-- `RateLimitConfig` dataclass. -/
structure RateLimitConfig where
  requests_per_minute : Nat := 60
  requests_per_hour : Nat := 1000
  requests_per_day : Nat := 10000
  burst_size : Nat := 10
deriving DecidableEq, Repr

/-- The Redis client interface used by `_check_limit`, over an abstract store
state `σ`.  Each operation may raise (`Except.error`); state-mutating
operations return the new store state.  `zrangeHead` models
`zrange(key, 0, 0, withscores=True)` and yields the scores of the returned
entries (only `oldest_entries[0][1]`, the score, is ever read). -/
structure RedisClient (σ : Type) where
  zremrangebyscore : σ → String → Int → Int → Except String σ
  zcard : σ → String → Except String Nat
  zrangeHead : σ → String → Except String (List Int)
  zadd : σ → String → String → Int → Except String σ
  expire : σ → String → Int → Except String σ

/-- The request marker `_check_limit` inserts for a request at time `now`
(`f"{now}:{id(self)}"`, with the constant `id(self)` written `self`). -/
def reqId (now : Int) : String := toString now ++ ":self"

/-- `_check_limit(key, limit, window_seconds)` at wall-clock time `now`:
prune entries with score in `[0, now - window]`, count, and either deny with
`max(1, int(oldest + window - now))` (or `window` if the set is somehow
empty) or insert the request marker and set the key expiry.  Each `await`
point that raises is caught by the bare `except`, which fails open with
`(True, None)` — mutations already applied to the store persist. -/
def check_limit {σ : Type} (c : RedisClient σ) (s : σ) (key : String)
    (limit : Nat) (window : Int) (now : Int) : Bool × Option Int × σ :=
  match c.zremrangebyscore s key 0 (now - window) with
  | .error _ => (true, none, s)
  | .ok s1 =>
    match c.zcard s1 key with
    | .error _ => (true, none, s1)
    | .ok current_count =>
      if limit ≤ current_count then
        match c.zrangeHead s1 key with
        | .error _ => (true, none, s1)
        | .ok [] => (false, some window, s1)
        | .ok (oldest_time :: _) =>
          (false, some (max 1 (oldest_time + window - now)), s1)
      else
        match c.zadd s1 key (reqId now) now with
        | .error _ => (true, none, s1)
        | .ok s2 =>
          match c.expire s2 key (window + 60) with
          | .error _ => (true, none, s2)
          | .ok s3 => (true, none, s3)

/-- The Redis key `f"ratelimit:{org_id}:{operation}:{granularity}"`. -/
def rlKey (org_id operation granularity : String) : String :=
  "ratelimit:" ++ org_id ++ ":" ++ operation ++ ":" ++ granularity

/-- `check_rate_limit(org_id, operation)`: minute window, then hour, then
day, stopping at the first denial.  (The limiter is modelled as enabled; with
no Redis client configured the method trivially returns `(True, None)`.) -/
def check_rate_limit {σ : Type} (c : RedisClient σ) (cfg : RateLimitConfig)
    (s : σ) (org_id operation : String) (now : Int) : Bool × Option Int × σ :=
  let m := check_limit c s (rlKey org_id operation "minute")
    cfg.requests_per_minute 60 now
  if m.1 = false then m
  else
    let h := check_limit c m.2.2 (rlKey org_id operation "hour")
      cfg.requests_per_hour 3600 now
    if h.1 = false then h
    else
      let d := check_limit c h.2.2 (rlKey org_id operation "day")
        cfg.requests_per_day 86400 now
      if d.1 = false then d
      else (true, none, d.2.2)

/-! ### A concrete sorted-set store

`RLStore` interprets each Redis key as a sorted set: a list of
`(member, score)` pairs.  `goodRedis` implements the five operations with
real sorted-set semantics; `badRedis` raises on every call (a store outage). -/

/-- Store state: sorted-set contents per key. -/
def RLStore : Type := String → List (String × Int)

/-- Pointwise update of one key. -/
def storeSet (s : RLStore) (key : String) (v : List (String × Int)) : RLStore :=
  fun k => if k = key then v else s k

/-- `zremrangebyscore key 0 cutoff`: drop entries with score in `[0, cutoff]`. -/
def pruneWindow (l : List (String × Int)) (cutoff : Int) : List (String × Int) :=
  l.filter fun e => !(decide ((0 : Int) ≤ e.2) && decide (e.2 ≤ cutoff))

/-- The minimum score present in a sorted set. -/
def scoresMin (l : List (String × Int)) : Option Int :=
  (l.map Prod.snd).min?

/-- `zadd key {member: score}`: update the member's score if present,
otherwise insert the member. -/
def zaddList (l : List (String × Int)) (member : String) (score : Int) :
    List (String × Int) :=
  if l.any (fun e => e.1 == member) then
    l.map fun e => if e.1 == member then (member, score) else e
  else
    l ++ [(member, score)]

/-- A healthy Redis backend over `RLStore`. -/
def goodRedis : RedisClient RLStore :=
  { zremrangebyscore := fun s key lo hi =>
      .ok (storeSet s key ((s key).filter
        fun e => !(decide (lo ≤ e.2) && decide (e.2 ≤ hi))))
    zcard := fun s key => .ok (s key).length
    zrangeHead := fun s key =>
      .ok (match scoresMin (s key) with
        | none => []
        | some m => [m])
    zadd := fun s key member score => .ok (storeSet s key (zaddList (s key) member score))
    expire := fun s _ _ => .ok s }

/-- A Redis backend whose every operation raises. -/
def badRedis : RedisClient RLStore :=
  { zremrangebyscore := fun _ _ _ _ => .error "connection refused"
    zcard := fun _ _ => .error "connection refused"
    zrangeHead := fun _ _ => .error "connection refused"
    zadd := fun _ _ _ _ => .error "connection refused"
    expire := fun _ _ _ => .error "connection refused" }

/-- The store with every sorted set empty. -/
def emptyStore : RLStore := fun _ => []

/-! # Theorems -/

/-! ## C8 — defensive prompt formatting -/

/-- C8: the claim says `_safe_format_prompt` substitutes `"not provided"` for
every unsupplied placeholder and never raises, including with two or more
unsupplied variables.  The code only recovers from the first `KeyError`: with
template `"{a} and {b}"` and no arguments, the retry raises `KeyError` for
`b`, which propagates.  (A single missing variable, by contrast, is handled
as documented.) -/
theorem safe_format_prompt_two_missing_raises :
    safe_format_prompt [TplPart.ph "a", TplPart.lit " and ", TplPart.ph "b"] [] =
      Except.error "b" ∧
    safe_format_prompt [TplPart.ph "a", TplPart.lit " and ", TplPart.ph "b"]
      [("b", "B")] = Except.ok "not provided and B" ∧
    safe_format_prompt [TplPart.ph "a"] [] = Except.ok "not provided" := by
  refine ⟨rfl, rfl, rfl⟩

/-! ## C9 — `generate_response` ignores the caller-supplied `info_summary` -/

/-- C9: for any two calls identical in every argument and provider behavior
except `info_summary`, `generate_response` returns the same result: the
parameter is shadowed by the recomputed summary before any use. -/
theorem generate_response_independent_of_info_summary
    (adapters : AdapterMap) (priority : List LLMProvider)
    (reply_tpl : List TplPart) (system_tpl : Option String)
    (message lead_stage summary1 summary2 : String) (history : List Msg)
    (extracted : Option ExtractionData) :
    generate_response adapters priority reply_tpl system_tpl
      message lead_stage summary1 history extracted =
    generate_response adapters priority reply_tpl system_tpl
      message lead_stage summary2 history extracted := rfl

/-! ## C3 — circuit-breaker recovery timing -/

/-- A breaker opened by one failure recorded at wall-clock time `0`
(`failure_threshold = 1`, `recovery_timeout = 1`). -/
def cbZeroTime : CircuitBreaker := record_failure (mkCircuitBreaker 1 1) 0

/-- C3 counterexample: with the last failure recorded at `T = 0` and
`R = 1`, a `can_attempt` at time `5 ≥ T + R` still returns `false` and
leaves the state FAILED, because `if self.last_failure_time:` treats the
timestamp `0` as falsy.  This refutes the claim as stated for `T = 0`. -/
theorem can_attempt_zero_timestamp_counterexample :
    cbZeroTime.status = ProviderStatus.failed ∧
    cbZeroTime.last_failure_time = some 0 ∧
    cbZeroTime.recovery_timeout = 1 ∧
    ((0 : Int) + 1 ≤ 5) ∧
    (can_attempt cbZeroTime 5).1 = false ∧
    (can_attempt cbZeroTime 5).2.status = ProviderStatus.failed := by
  refine ⟨rfl, rfl, rfl, by decide, rfl, rfl⟩

/-- C3 amended: for a FAILED breaker whose last failure time `T` is nonzero
(the timestamp is truthy), `can_attempt` before `T + R` returns `false` and
leaves the state unchanged, and at or after `T + R` returns `true` and moves
the state to DEGRADED. -/
theorem can_attempt_recovery_timing (cb : CircuitBreaker) (T now : Int)
    (hst : cb.status = ProviderStatus.failed)
    (hlt : cb.last_failure_time = some T) (hT : T ≠ 0) :
    (now < T + cb.recovery_timeout → can_attempt cb now = (false, cb)) ∧
    (T + cb.recovery_timeout ≤ now →
      can_attempt cb now = (true, { cb with status := ProviderStatus.degraded })) := by
  constructor
  · intro hnow
    have hif : ¬ (cb.recovery_timeout ≤ now - T) := by omega
    simp [can_attempt, hst, hlt, timeTruthy, hT, hif]
  · intro hnow
    have hif : cb.recovery_timeout ≤ now - T := by omega
    simp [can_attempt, hst, hlt, timeTruthy, hT, hif]

/-- A breaker opened by one failure at time `100` with `recovery_timeout = 10`. -/
def cbRecovery : CircuitBreaker := record_failure (mkCircuitBreaker 1 10) 100

/-- Witness for `can_attempt_recovery_timing` at `T = 100`, `R = 10`:
denied at time `105`, allowed (and DEGRADED) at time `110`. -/
theorem can_attempt_recovery_timing_witness :
    can_attempt cbRecovery 105 = (false, cbRecovery) ∧
    can_attempt cbRecovery 110 =
      (true, { cbRecovery with status := ProviderStatus.degraded }) := by
  have h105 := can_attempt_recovery_timing cbRecovery 100 105 rfl rfl (by decide)
  have h110 := can_attempt_recovery_timing cbRecovery 100 110 rfl rfl (by decide)
  exact ⟨h105.1 (by decide), h110.2 (by decide)⟩

/-! ## C4 — circuit-breaker invariant and monotonicity -/

/-- Each `record_failure` step preserves the failure threshold. -/
theorem applyFailures_threshold (ts : List Int) :
    ∀ cb : CircuitBreaker, (applyFailures cb ts).failure_threshold = cb.failure_threshold := by
  induction ts with
  | nil => intro cb; rfl
  | cons t ts ih =>
    intro cb
    simpa [applyFailures, List.foldl_cons] using ih (record_failure cb t)

/-- The failure count never decreases along a run of `record_failure`s. -/
theorem applyFailures_count_mono (ts : List Int) :
    ∀ cb : CircuitBreaker, cb.failure_count ≤ (applyFailures cb ts).failure_count := by
  induction ts with
  | nil => intro cb; exact le_refl _
  | cons t ts ih =>
    intro cb
    have step : cb.failure_count ≤ (record_failure cb t).failure_count := by
      simp [record_failure]
    calc cb.failure_count ≤ (record_failure cb t).failure_count := step
      _ ≤ (applyFailures (record_failure cb t) ts).failure_count := by
          simpa [applyFailures, List.foldl_cons] using ih (record_failure cb t)

/-- Once the count has reached the threshold with the circuit open, further
failures keep it open. -/
theorem applyFailures_stays_failed (ts : List Int) :
    ∀ cb : CircuitBreaker, cb.failure_threshold ≤ cb.failure_count →
      cb.status = ProviderStatus.failed →
      (applyFailures cb ts).status = ProviderStatus.failed := by
  induction ts with
  | nil => intro cb _ hst; exact hst
  | cons t ts ih =>
    intro cb hc _
    have hc2 : (record_failure cb t).failure_threshold ≤ (record_failure cb t).failure_count := by
      simp [record_failure]; omega
    have hst2 : (record_failure cb t).status = ProviderStatus.failed := by
      simp [record_failure]; omega
    simpa [applyFailures, List.foldl_cons] using ih (record_failure cb t) hc2 hst2

/-- C4: every circuit-breaker operation preserves the invariant
`status == FAILED → failure_count >= failure_threshold`, and along any run of
`record_failure`s with no intervening `record_success`/`reset` the failure
count is non-decreasing, with the status FAILED from the first call at which
the count reaches the threshold onward. -/
theorem circuit_breaker_invariant_and_monotonicity :
    (∀ cb : CircuitBreaker, BreakerInv cb → BreakerInv (record_success cb)) ∧
    (∀ (cb : CircuitBreaker) (t : Int), BreakerInv cb → BreakerInv (record_failure cb t)) ∧
    (∀ (cb : CircuitBreaker) (t : Int), BreakerInv cb → BreakerInv (can_attempt cb t).2) ∧
    (∀ cb : CircuitBreaker, BreakerInv (reset cb)) ∧
    (∀ (cb : CircuitBreaker) (ts : List Int),
      cb.failure_count ≤ (applyFailures cb ts).failure_count) ∧
    (∀ (cb : CircuitBreaker) (t : Int) (ts : List Int),
      cb.failure_threshold ≤ (record_failure cb t).failure_count →
      (record_failure cb t).status = ProviderStatus.failed ∧
      (applyFailures (record_failure cb t) ts).status = ProviderStatus.failed) := by
  refine ⟨?_, ?_, ?_, ?_, ?_, ?_⟩
  · intro cb _ h
    simp [record_success] at h
  · intro cb t hInv h
    by_cases hc : cb.failure_threshold ≤ cb.failure_count + 1
    · simpa [record_failure] using hc
    · have : cb.status = ProviderStatus.failed := by
        simpa [record_failure, hc] using h
      have := hInv this
      simp [record_failure]
      omega
  · intro cb t hInv
    have hcases : (can_attempt cb t).2 = cb ∨
        (can_attempt cb t).2 = { cb with status := ProviderStatus.degraded } := by
      unfold can_attempt
      cases cb.status <;> simp
      split_ifs <;> simp
    rcases hcases with h | h <;> rw [h]
    · exact hInv
    · intro hf
      simp at hf
  · intro cb h
    simp [reset] at h
  · intro cb ts
    exact applyFailures_count_mono ts cb
  · intro cb t ts hc
    have hst : (record_failure cb t).status = ProviderStatus.failed := by
      simp [record_failure] at hc ⊢
      omega
    exact ⟨hst, applyFailures_stays_failed ts (record_failure cb t) hc hst⟩

/-- Witness for `circuit_breaker_invariant_and_monotonicity` on a breaker
with threshold 2: three consecutive failures trip and keep the circuit open,
and the invariant holds after each operation. -/
theorem circuit_breaker_invariant_witness :
    BreakerInv (record_success (mkCircuitBreaker 2 60)) ∧
    BreakerInv (record_failure (mkCircuitBreaker 2 60) 5) ∧
    BreakerInv (can_attempt (mkCircuitBreaker 2 60) 5).2 ∧
    BreakerInv (reset (mkCircuitBreaker 2 60)) ∧
    (mkCircuitBreaker 2 60).failure_count ≤
      (applyFailures (mkCircuitBreaker 2 60) [1, 2, 3]).failure_count ∧
    (record_failure (record_failure (mkCircuitBreaker 2 60) 1) 2).status =
      ProviderStatus.failed ∧
    (applyFailures (record_failure (record_failure (mkCircuitBreaker 2 60) 1) 2) [3]).status =
      ProviderStatus.failed := by
  have h6 := circuit_breaker_invariant_and_monotonicity.2.2.2.2.2
    (record_failure (mkCircuitBreaker 2 60) 1) 2 [3] (by decide)
  refine ⟨circuit_breaker_invariant_and_monotonicity.1 _
      (by intro h; simp [mkCircuitBreaker] at h),
    circuit_breaker_invariant_and_monotonicity.2.1 _ 5
      (by intro h; simp [mkCircuitBreaker] at h),
    circuit_breaker_invariant_and_monotonicity.2.2.1 _ 5
      (by intro h; simp [mkCircuitBreaker] at h),
    circuit_breaker_invariant_and_monotonicity.2.2.2.1 _,
    circuit_breaker_invariant_and_monotonicity.2.2.2.2.1 _ [1, 2, 3],
    h6.1, h6.2⟩

/-! ## C7 — authentication errors and the fallback loop -/

/-- A successful second-provider response used in concrete scenarios. -/
def claudeOkResponse : LLMResponse :=
  { content := "Happy to help!"
    provider := .anthropic
    model := "claude-3-5-sonnet-20241022"
    prompt_tokens := 10
    completion_tokens := 5
    latency_ms := 200 }

/-- Adapter table in which OpenAI hits an SDK `AuthenticationError` and
Anthropic succeeds. -/
def authFailAdapters : AdapterMap := fun p =>
  match p with
  | .openai => some (fun _ _ =>
      openai_complete true "gpt-4-turbo-preview" SDKOutcome.authError 12)
  | .anthropic => some (fun _ _ => .ok claudeOkResponse)
  | _ => none

/-- C7 counterexample: an OpenAI authentication failure becomes a
`ProviderAPIError` (status 401), which `_complete_with_fallback` catches like
any other provider error — the next provider IS attempted and its response is
returned.  This refutes the claim that the fallback sequence does not proceed
after an authentication error. -/
theorem auth_error_fallback_counterexample :
    openai_complete true "gpt-4-turbo-preview" SDKOutcome.authError 12 =
      Except.error (ProviderError.apiError "OpenAI"
        "Invalid API key - please check your OPENAI_API_KEY" (some 401)) ∧
    invoked_providers authFailAdapters "Hello" none
      [LLMProvider.openai, LLMProvider.anthropic] =
      [LLMProvider.openai, LLMProvider.anthropic] ∧
    complete_with_fallback authFailAdapters "Hello" none
      [LLMProvider.openai, LLMProvider.anthropic] [] =
      Except.ok claudeOkResponse := by
  refine ⟨rfl, rfl, rfl⟩

/-- C7 amended: the OpenAI adapter converts an SDK `AuthenticationError`
into `ProviderAPIError("OpenAI", "Invalid API key - please check your
OPENAI_API_KEY", 401)`, and the fallback loop treats every raised provider
error — authentication included, exactly like provider rate-limit (429),
generic API, and transport errors — as eligible for fallback: it records the
error and proceeds to the next provider. -/
theorem auth_error_treated_as_transient :
    (∀ (model : String) (lat : Nat),
      openai_complete true model SDKOutcome.authError lat =
        Except.error (ProviderError.apiError "OpenAI"
          "Invalid API key - please check your OPENAI_API_KEY" (some 401))) ∧
    (∀ (model : String) (lat : Nat),
      openai_complete true model SDKOutcome.rateLimitError lat =
        Except.error (ProviderError.apiError "OpenAI"
          "Rate limit exceeded - try again in a moment" (some 429))) ∧
    (∀ (adapters : AdapterMap) (prompt : String) (sys : Option String)
        (p : LLMProvider) (ps : List LLMProvider)
        (errs : List (LLMProvider × String))
        (f : String → Option String → Except ProviderError LLMResponse)
        (e : ProviderError),
      adapters p = some f → f prompt sys = Except.error e →
      complete_with_fallback adapters prompt sys (p :: ps) errs =
        complete_with_fallback adapters prompt sys ps (errs ++ [(p, e.str)]) ∧
      invoked_providers adapters prompt sys (p :: ps) =
        p :: invoked_providers adapters prompt sys ps) := by
  refine ⟨fun _ _ => rfl, fun _ _ => rfl, ?_⟩
  intro adapters prompt sys p ps errs f e hf he
  constructor
  · simp [complete_with_fallback, hf, he]
  · simp [invoked_providers, hf, he]

/-- Witness for `auth_error_treated_as_transient`: the concrete
`authFailAdapters` table with OpenAI failing authentication steps past
OpenAI to Anthropic. -/
theorem auth_error_treated_as_transient_witness :
    openai_complete true "gpt-4-turbo-preview" SDKOutcome.authError 7 =
      Except.error (ProviderError.apiError "OpenAI"
        "Invalid API key - please check your OPENAI_API_KEY" (some 401)) ∧
    openai_complete true "gpt-4-turbo-preview" SDKOutcome.rateLimitError 7 =
      Except.error (ProviderError.apiError "OpenAI"
        "Rate limit exceeded - try again in a moment" (some 429)) ∧
    complete_with_fallback authFailAdapters "Hello" none
      [LLMProvider.openai, LLMProvider.anthropic] [] =
      complete_with_fallback authFailAdapters "Hello" none [LLMProvider.anthropic]
        [(LLMProvider.openai,
          "OpenAI: Invalid API key - please check your OPENAI_API_KEY")] ∧
    invoked_providers authFailAdapters "Hello" none
      [LLMProvider.openai, LLMProvider.anthropic] =
      LLMProvider.openai ::
        invoked_providers authFailAdapters "Hello" none [LLMProvider.anthropic] := by
  have h3 := auth_error_treated_as_transient.2.2 authFailAdapters "Hello" none
    LLMProvider.openai [LLMProvider.anthropic] [] _
    (ProviderError.apiError "OpenAI"
      "Invalid API key - please check your OPENAI_API_KEY" (some 401)) rfl rfl
  exact ⟨auth_error_treated_as_transient.1 "gpt-4-turbo-preview" 7,
    auth_error_treated_as_transient.2.1 "gpt-4-turbo-preview" 7, h3.1, h3.2⟩

/-! ## C1 — fallback sequence: win-first and exhaustion -/

/-- When every provider in the list fails or is missing, the loop raises
`AllProvidersFailedError` carrying the accumulated and newly collected
per-provider reasons. -/
theorem complete_with_fallback_all_fail (adapters : AdapterMap) (prompt : String)
    (sys : Option String) (prio : List LLMProvider) :
    ∀ errs : List (LLMProvider × String),
      (∀ q ∈ prio, failsOrMissing adapters prompt sys q) →
      complete_with_fallback adapters prompt sys prio errs =
        Except.error (allFailedMessage (errs ++ failure_reasons adapters prompt sys prio)) := by
  induction prio with
  | nil => intro errs _; simp [complete_with_fallback, failure_reasons]
  | cons p rest ih =>
    intro errs H
    have hp := H p (by simp)
    have hrest : ∀ q ∈ rest, failsOrMissing adapters prompt sys q :=
      fun q hq => H q (by simp [hq])
    rcases hp with hnone | ⟨f, e, hf, he⟩
    · rw [show complete_with_fallback adapters prompt sys (p :: rest) errs =
          complete_with_fallback adapters prompt sys rest errs by
        simp [complete_with_fallback, hnone]]
      rw [ih errs hrest]
      simp [failure_reasons, hnone]
    · rw [show complete_with_fallback adapters prompt sys (p :: rest) errs =
          complete_with_fallback adapters prompt sys rest (errs ++ [(p, e.str)]) by
        simp [complete_with_fallback, hf, he]]
      rw [ih (errs ++ [(p, e.str)]) hrest]
      simp [failure_reasons, hf, he]

/-- When every provider before `p` fails or is missing and `p` succeeds,
the loop returns `p`'s response. -/
theorem complete_with_fallback_win (adapters : AdapterMap) (prompt : String)
    (sys : Option String) (pre : List LLMProvider) :
    ∀ (p : LLMProvider) (post : List LLMProvider)
      (f : String → Option String → Except ProviderError LLMResponse)
      (r : LLMResponse) (errs : List (LLMProvider × String)),
      (∀ q ∈ pre, failsOrMissing adapters prompt sys q) →
      adapters p = some f → f prompt sys = Except.ok r →
      complete_with_fallback adapters prompt sys (pre ++ p :: post) errs =
        Except.ok r := by
  induction pre with
  | nil =>
    intro p post f r errs _ hf hr
    simp [complete_with_fallback, hf, hr]
  | cons q pre ih =>
    intro p post f r errs H hf hr
    have hq := H q (by simp)
    have hpre : ∀ x ∈ pre, failsOrMissing adapters prompt sys x :=
      fun x hx => H x (by simp [hx])
    rcases hq with hnone | ⟨g, e, hg, he⟩
    · rw [show complete_with_fallback adapters prompt sys ((q :: pre) ++ p :: post) errs =
          complete_with_fallback adapters prompt sys (pre ++ p :: post) errs by
        simp [complete_with_fallback, hnone]]
      exact ih p post f r errs hpre hf hr
    · rw [show complete_with_fallback adapters prompt sys ((q :: pre) ++ p :: post) errs =
          complete_with_fallback adapters prompt sys (pre ++ p :: post)
            (errs ++ [(q, e.str)]) by
        simp [complete_with_fallback, hg, he]]
      exact ih p post f r (errs ++ [(q, e.str)]) hpre hf hr

/-- Under the same conditions, the set of providers whose adapter is invoked
stops at the winner: nothing after `p` is called. -/
theorem invoked_providers_win (adapters : AdapterMap) (prompt : String)
    (sys : Option String) (pre : List LLMProvider) :
    ∀ (p : LLMProvider) (post : List LLMProvider)
      (f : String → Option String → Except ProviderError LLMResponse)
      (r : LLMResponse),
      (∀ q ∈ pre, failsOrMissing adapters prompt sys q) →
      adapters p = some f → f prompt sys = Except.ok r →
      invoked_providers adapters prompt sys (pre ++ p :: post) =
        invoked_providers adapters prompt sys pre ++ [p] := by
  induction pre with
  | nil =>
    intro p post f r _ hf hr
    simp [invoked_providers, hf, hr]
  | cons q pre ih =>
    intro p post f r H hf hr
    have hq := H q (by simp)
    have hpre : ∀ x ∈ pre, failsOrMissing adapters prompt sys x :=
      fun x hx => H x (by simp [hx])
    rcases hq with hnone | ⟨g, e, hg, he⟩
    · simp only [List.cons_append, invoked_providers, hnone]
      exact ih p post f r hpre hf hr
    · simp only [List.cons_append, invoked_providers, hg, he]
      exact congrArg (fun l => q :: l) (ih p post f r hpre hf hr)

/-- C1: the fallback sequence in `_complete_with_fallback` iterates
`provider_priority` in order; the first provider whose adapter call succeeds
supplies the returned response and no later provider is invoked; if every
configured provider fails (raised error or missing adapter), the loop raises
`AllProvidersFailedError` whose message concatenates every attempted
provider's failure reason. -/
theorem fallback_win_first_and_exhaustion :
    (∀ (adapters : AdapterMap) (prompt : String) (sys : Option String)
        (pre post : List LLMProvider) (p : LLMProvider)
        (f : String → Option String → Except ProviderError LLMResponse)
        (r : LLMResponse),
      (∀ q ∈ pre, failsOrMissing adapters prompt sys q) →
      adapters p = some f → f prompt sys = Except.ok r →
      complete_with_fallback adapters prompt sys (pre ++ p :: post) [] =
        Except.ok r ∧
      invoked_providers adapters prompt sys (pre ++ p :: post) =
        invoked_providers adapters prompt sys pre ++ [p]) ∧
    (∀ (adapters : AdapterMap) (prompt : String) (sys : Option String)
        (prio : List LLMProvider),
      (∀ q ∈ prio, failsOrMissing adapters prompt sys q) →
      complete_with_fallback adapters prompt sys prio [] =
        Except.error (allFailedMessage (failure_reasons adapters prompt sys prio))) := by
  constructor
  · intro adapters prompt sys pre post p f r H hf hr
    exact ⟨complete_with_fallback_win adapters prompt sys pre p post f r [] H hf hr,
      invoked_providers_win adapters prompt sys pre p post f r H hf hr⟩
  · intro adapters prompt sys prio H
    simpa using complete_with_fallback_all_fail adapters prompt sys prio [] H

/-- Adapter table in which every provider with an adapter fails: OpenAI with
a provider rate-limit error, Anthropic with an open circuit. -/
def allFailAdapters : AdapterMap := fun p =>
  match p with
  | .openai => some (fun _ _ =>
      .error (.apiError "OpenAI" "Rate limit exceeded - try again in a moment" (some 429)))
  | .anthropic => some (fun _ _ =>
      .error (.circuitOpen "Anthropic circuit breaker is open"))
  | _ => none

/-- Witness for `fallback_win_first_and_exhaustion`: with OpenAI failing and
Anthropic succeeding the loop stops at Anthropic, and with every provider
failing it raises the concatenated `AllProvidersFailedError` message. -/
theorem fallback_win_first_and_exhaustion_witness :
    (complete_with_fallback authFailAdapters "Hi" none
        [LLMProvider.openai, LLMProvider.anthropic, LLMProvider.gemini] [] =
      Except.ok claudeOkResponse ∧
    invoked_providers authFailAdapters "Hi" none
        [LLMProvider.openai, LLMProvider.anthropic, LLMProvider.gemini] =
      invoked_providers authFailAdapters "Hi" none [LLMProvider.openai] ++
        [LLMProvider.anthropic]) ∧
    complete_with_fallback allFailAdapters "Hi" none
        [LLMProvider.openai, LLMProvider.anthropic, LLMProvider.gemini] [] =
      Except.error (allFailedMessage (failure_reasons allFailAdapters "Hi" none
        [LLMProvider.openai, LLMProvider.anthropic, LLMProvider.gemini])) := by
  constructor
  · exact fallback_win_first_and_exhaustion.1 authFailAdapters "Hi" none
      [LLMProvider.openai] [LLMProvider.gemini] LLMProvider.anthropic _
      claudeOkResponse
      (by
        intro q hq
        simp at hq
        subst hq
        exact Or.inr ⟨_, _, rfl, rfl⟩)
      rfl rfl
  · exact fallback_win_first_and_exhaustion.2 allFailAdapters "Hi" none
      [LLMProvider.openai, LLMProvider.anthropic, LLMProvider.gemini]
      (by
        intro q hq
        simp at hq
        rcases hq with h | h | h <;> subst h
        · exact Or.inr ⟨_, _, rfl, rfl⟩
        · exact Or.inr ⟨_, _, rfl, rfl⟩
        · exact Or.inl rfl)

/-! ## C2 — `extract_lead_info` on total provider failure -/

/-- The error kinds named by the claim: `ProviderAPIError` or an open
circuit. -/
def apiOrCircuit : ProviderError → Prop
  | .apiError _ _ _ => True
  | .circuitOpen _ => True
  | .other _ => False

/-- C2: when the cache does not hit, the extraction template renders, and
every configured adapter raises `ProviderAPIError` or reports an open
circuit on every call, `extract_lead_info` does not raise: it returns the
fallback `ExtractionResult`, whose data is the schema-shaped empty
extraction structure (with the failure reason recorded in
`metadata.extraction_notes`), with `validated = false` and the singleton —
hence non-empty — `validation_errors` list. -/
theorem extract_lead_info_total_failure
    (adapters : AdapterMap) (priority : List LLMProvider)
    (extract_tpl : List TplPart)
    (parse : String → Option ExtractionData)
    (validateData : ExtractionData → Bool × Option (List String))
    (dumps : ExtractionData → String)
    (message sender : String) (history : List Msg) (prompt : String)
    (hrender : safe_format_prompt extract_tpl
      (extract_kwargs message sender history) = Except.ok prompt)
    (hfail : ∀ p ∈ priority, ∀ f, adapters p = some f →
      ∀ pr sy, ∃ e, f pr sy = Except.error e ∧ apiOrCircuit e) :
    extract_lead_info adapters priority extract_tpl parse validateData dumps
        none message sender history =
      Except.ok (create_fallback_extraction dumps
        (allFailedMessage (failure_reasons adapters prompt none priority))) ∧
    (∀ reason,
      (create_fallback_extraction dumps reason).validated = false ∧
      (create_fallback_extraction dumps reason).validation_errors = some [reason] ∧
      [reason] ≠ ([] : List String) ∧
      (create_fallback_extraction dumps reason).data =
        { get_empty_extraction_structure with
          metadata := { get_empty_extraction_structure.metadata with
            extraction_notes := "Extraction failed: " ++ reason } }) := by
  constructor
  · have hmiss : ∀ q ∈ priority, failsOrMissing adapters prompt none q := by
      intro q hq
      cases hAq : adapters q with
      | none => exact Or.inl hAq
      | some f =>
        obtain ⟨e, he, _⟩ := hfail q hq f hAq prompt none
        exact Or.inr ⟨f, e, hAq, he⟩
    have hall := complete_with_fallback_all_fail adapters prompt none priority [] hmiss
    simp only [extract_lead_info, hrender, hall, List.nil_append]
  · intro reason
    exact ⟨rfl, rfl, by simp, rfl⟩

/-- Witness for `extract_lead_info_total_failure`: a concrete all-failing
adapter table and a one-placeholder extraction template produce the fallback
extraction. -/
theorem extract_lead_info_total_failure_witness :
    extract_lead_info allFailAdapters [LLMProvider.openai, LLMProvider.anthropic]
        [TplPart.lit "From: ", TplPart.ph "sender"]
        (fun _ => none) (fun _ => (true, none)) (fun _ => "serialized")
        none "hello" "+15550100" [] =
      Except.ok (create_fallback_extraction (fun _ => "serialized")
        (allFailedMessage (failure_reasons allFailAdapters "From: +15550100" none
          [LLMProvider.openai, LLMProvider.anthropic]))) := by
  have h := extract_lead_info_total_failure allFailAdapters
    [LLMProvider.openai, LLMProvider.anthropic]
    [TplPart.lit "From: ", TplPart.ph "sender"]
    (fun _ => none) (fun _ => (true, none)) (fun _ => "serialized")
    "hello" "+15550100" [] "From: +15550100" rfl
    (by
      intro p hp f hf pr sy
      simp at hp
      rcases hp with h | h <;> subst h <;>
        simp [allFailAdapters] at hf <;> subst hf
      · exact ⟨_, rfl, trivial⟩
      · exact ⟨_, rfl, trivial⟩)
  exact h.1

/-! ## C6 — rate limiter fails open on store outage -/

/-- C6: if every counter-store operation raises, `check_rate_limit` returns
`(True, None)` (with the store state untouched) and propagates no
exception. -/
theorem check_rate_limit_fails_open {σ : Type} (c : RedisClient σ)
    (hrem : ∀ s key lo hi, ∃ m, c.zremrangebyscore s key lo hi = Except.error m)
    (hcard : ∀ s key, ∃ m, c.zcard s key = Except.error m)
    (hrange : ∀ s key, ∃ m, c.zrangeHead s key = Except.error m)
    (hadd : ∀ s key member score, ∃ m, c.zadd s key member score = Except.error m)
    (hexp : ∀ s key ttl, ∃ m, c.expire s key ttl = Except.error m)
    (cfg : RateLimitConfig) (s : σ) (org_id operation : String) (now : Int) :
    check_rate_limit c cfg s org_id operation now = (true, none, s) := by
  have hl : ∀ (s2 : σ) (key : String) (lim : Nat) (w : Int),
      check_limit c s2 key lim w now = (true, none, s2) := by
    intro s2 key lim w
    obtain ⟨m, hm⟩ := hrem s2 key 0 (now - w)
    simp [check_limit, hm]
  simp [check_rate_limit, hl]

/-- Witness for `check_rate_limit_fails_open`: the always-raising
`badRedis` backend with the default limits. -/
theorem check_rate_limit_fails_open_witness :
    check_rate_limit badRedis {} emptyStore "org-1" "llm_call" 1000 =
      (true, none, emptyStore) :=
  check_rate_limit_fails_open badRedis
    (fun _ _ _ _ => ⟨_, rfl⟩) (fun _ _ => ⟨_, rfl⟩) (fun _ _ => ⟨_, rfl⟩)
    (fun _ _ _ _ => ⟨_, rfl⟩) (fun _ _ _ => ⟨_, rfl⟩)
    {} emptyStore "org-1" "llm_call" 1000

/-! ## Sorted-set store lemmas for C5 and C10 -/

/-- Reading back the key just written. -/
theorem storeSet_same (s : RLStore) (key : String) (v : List (String × Int)) :
    storeSet s key v key = v := by
  simp [storeSet]

/-- Reading a different key is unaffected. -/
theorem storeSet_other (s : RLStore) (key : String) (v : List (String × Int))
    (k : String) (h : k ≠ key) : storeSet s key v k = s k := by
  simp [storeSet, h]

/-- Writing the same key twice keeps only the second write. -/
theorem storeSet_storeSet (s : RLStore) (key : String)
    (a b : List (String × Int)) :
    storeSet (storeSet s key a) key b = storeSet s key b := by
  funext k
  by_cases h : k = key <;> simp [storeSet, h]

/-- `zremrangebyscore key 0 (now - window)` on the healthy backend is the
window prune. -/
theorem goodRedis_zrem (s : RLStore) (key : String) (cutoff : Int) :
    goodRedis.zremrangebyscore s key 0 cutoff =
      Except.ok (storeSet s key (pruneWindow (s key) cutoff)) := rfl

/-- Redis keys for distinct granularities are distinct (their lengths
differ). -/
theorem rlKey_ne (org op : String) {g1 g2 : String}
    (h : g1.length ≠ g2.length) : rlKey org op g1 ≠ rlKey org op g2 := by
  intro he
  apply h
  have hlen := congrArg String.length he
  simpa [rlKey, String.length_append] using hlen

/-- `_check_limit` on the healthy backend, denial case: at or above the
ceiling after pruning, the call returns `retry_after = max 1 (oldest + window
- now)` and performs no insertion. -/
theorem check_limit_deny (s : RLStore) (key : String) (limit : Nat)
    (window now m0 : Int)
    (hcount : limit ≤ (pruneWindow (s key) (now - window)).length)
    (hmin : scoresMin (pruneWindow (s key) (now - window)) = some m0) :
    check_limit goodRedis s key limit window now =
      (false, some (max 1 (m0 + window - now)),
        storeSet s key (pruneWindow (s key) (now - window))) := by
  unfold check_limit
  rw [goodRedis_zrem]
  simp only [goodRedis, storeSet_same, hmin, hcount, if_pos]

/-- `_check_limit` on the healthy backend, allow case: under the ceiling
after pruning, the request marker is inserted. -/
theorem check_limit_allow (s : RLStore) (key : String) (limit : Nat)
    (window now : Int)
    (hcount : (pruneWindow (s key) (now - window)).length < limit) :
    check_limit goodRedis s key limit window now =
      (true, none,
        storeSet s key (zaddList (pruneWindow (s key) (now - window)) (reqId now) now)) := by
  unfold check_limit
  rw [goodRedis_zrem]
  have hnot : ¬ (limit ≤ (pruneWindow (s key) (now - window)).length) := by omega
  simp only [goodRedis, storeSet_same, hnot, if_neg, not_false_eq_true, storeSet_storeSet]

/-- The freshly inserted request marker is a member of the updated set. -/
theorem zaddList_mem (l : List (String × Int)) (member : String) (score : Int) :
    (member, score) ∈ zaddList l member score := by
  unfold zaddList
  by_cases h : l.any (fun e => e.1 == member)
  · rw [if_pos h]
    obtain ⟨e, he, hm⟩ := List.any_eq_true.mp h
    refine List.mem_map.mpr ⟨e, he, ?_⟩
    simp [hm]
  · rw [if_neg h]
    exact List.mem_append_right _ (by simp)

/-! ## C5 — window order and retry computation -/

/-- `RateLimitConfig(requests_per_minute=3)` with the other defaults. -/
def rl3cfg : RateLimitConfig := { requests_per_minute := 3 }

/-- First of four calls within 60 seconds for the same org/operation. -/
def rlCall1 : Bool × Option Int × RLStore :=
  check_rate_limit goodRedis rl3cfg emptyStore "org-1" "llm_call" 100

/-- Second call, 10 seconds later. -/
def rlCall2 : Bool × Option Int × RLStore :=
  check_rate_limit goodRedis rl3cfg rlCall1.2.2 "org-1" "llm_call" 110

/-- Third call, 20 seconds in. -/
def rlCall3 : Bool × Option Int × RLStore :=
  check_rate_limit goodRedis rl3cfg rlCall2.2.2 "org-1" "llm_call" 120

/-- Fourth call, 30 seconds in. -/
def rlCall4 : Bool × Option Int × RLStore :=
  check_rate_limit goodRedis rl3cfg rlCall3.2.2 "org-1" "llm_call" 130

/-- C5: `check_rate_limit` checks minute, then hour, then day, returning
`(False, retry_after)` at the first window at its ceiling, with
`retry_after = max 1 (oldest + window - now)` for that window (so always at
least 1); a minute-window denial needs no assumption on the hour or day
windows, an hour-window denial requires the minute window to have passed,
and a day-window denial requires both.  Concretely, with
`requests_per_minute = 3`, four calls within 60 seconds yield
`True, True, True, False`, the fourth with `retry_after = 30 > 0`. -/
theorem check_rate_limit_window_order :
    (∀ (cfg : RateLimitConfig) (s : RLStore) (org op : String) (now m0 : Int),
      cfg.requests_per_minute ≤
        (pruneWindow (s (rlKey org op "minute")) (now - 60)).length →
      scoresMin (pruneWindow (s (rlKey org op "minute")) (now - 60)) = some m0 →
      (check_rate_limit goodRedis cfg s org op now).1 = false ∧
      (check_rate_limit goodRedis cfg s org op now).2.1 =
        some (max 1 (m0 + 60 - now))) ∧
    (∀ (cfg : RateLimitConfig) (s : RLStore) (org op : String) (now h0 : Int),
      (pruneWindow (s (rlKey org op "minute")) (now - 60)).length <
        cfg.requests_per_minute →
      cfg.requests_per_hour ≤
        (pruneWindow (s (rlKey org op "hour")) (now - 3600)).length →
      scoresMin (pruneWindow (s (rlKey org op "hour")) (now - 3600)) = some h0 →
      (check_rate_limit goodRedis cfg s org op now).1 = false ∧
      (check_rate_limit goodRedis cfg s org op now).2.1 =
        some (max 1 (h0 + 3600 - now))) ∧
    (∀ (cfg : RateLimitConfig) (s : RLStore) (org op : String) (now d0 : Int),
      (pruneWindow (s (rlKey org op "minute")) (now - 60)).length <
        cfg.requests_per_minute →
      (pruneWindow (s (rlKey org op "hour")) (now - 3600)).length <
        cfg.requests_per_hour →
      cfg.requests_per_day ≤
        (pruneWindow (s (rlKey org op "day")) (now - 86400)).length →
      scoresMin (pruneWindow (s (rlKey org op "day")) (now - 86400)) = some d0 →
      (check_rate_limit goodRedis cfg s org op now).1 = false ∧
      (check_rate_limit goodRedis cfg s org op now).2.1 =
        some (max 1 (d0 + 86400 - now))) ∧
    (∀ x : Int, 1 ≤ max 1 x) ∧
    (rlCall1.1 = true ∧ rlCall1.2.1 = none ∧
     rlCall2.1 = true ∧ rlCall2.2.1 = none ∧
     rlCall3.1 = true ∧ rlCall3.2.1 = none ∧
     rlCall4.1 = false ∧ rlCall4.2.1 = some 30 ∧ (0 : Int) < 30) := by
  refine ⟨?_, ?_, ?_, fun x => le_max_left 1 x, ?_⟩
  · intro cfg s org op now m0 hc hmin
    have hm := check_limit_deny s (rlKey org op "minute")
      cfg.requests_per_minute 60 now m0 hc hmin
    simp [check_rate_limit, hm]
  · intro cfg s org op now h0 hmA hc hmin
    have hm := check_limit_allow s (rlKey org op "minute")
      cfg.requests_per_minute 60 now hmA
    have hne : rlKey org op "hour" ≠ rlKey org op "minute" :=
      rlKey_ne org op (by decide)
    have hsh : storeSet s (rlKey org op "minute")
        (zaddList (pruneWindow (s (rlKey org op "minute")) (now - 60)) (reqId now) now)
        (rlKey org op "hour") = s (rlKey org op "hour") :=
      storeSet_other _ _ _ _ hne
    have hh := check_limit_deny (storeSet s (rlKey org op "minute")
        (zaddList (pruneWindow (s (rlKey org op "minute")) (now - 60)) (reqId now) now))
      (rlKey org op "hour") cfg.requests_per_hour 3600 now h0
      (by rw [hsh]; exact hc) (by rw [hsh]; exact hmin)
    simp [check_rate_limit, hm, hh]
  · intro cfg s org op now d0 hmA hhA hc hmin
    have hm := check_limit_allow s (rlKey org op "minute")
      cfg.requests_per_minute 60 now hmA
    have hneHM : rlKey org op "hour" ≠ rlKey org op "minute" :=
      rlKey_ne org op (by decide)
    have hneDM : rlKey org op "day" ≠ rlKey org op "minute" :=
      rlKey_ne org op (by decide)
    have hneDH : rlKey org op "day" ≠ rlKey org op "hour" :=
      rlKey_ne org op (by decide)
    have hsh : storeSet s (rlKey org op "minute")
        (zaddList (pruneWindow (s (rlKey org op "minute")) (now - 60)) (reqId now) now)
        (rlKey org op "hour") = s (rlKey org op "hour") :=
      storeSet_other _ _ _ _ hneHM
    have hh := check_limit_allow (storeSet s (rlKey org op "minute")
        (zaddList (pruneWindow (s (rlKey org op "minute")) (now - 60)) (reqId now) now))
      (rlKey org op "hour") cfg.requests_per_hour 3600 now (by rw [hsh]; exact hhA)
    have hsd : storeSet (storeSet s (rlKey org op "minute")
          (zaddList (pruneWindow (s (rlKey org op "minute")) (now - 60)) (reqId now) now))
        (rlKey org op "hour")
        (zaddList (pruneWindow (storeSet s (rlKey org op "minute")
            (zaddList (pruneWindow (s (rlKey org op "minute")) (now - 60)) (reqId now) now)
            (rlKey org op "hour")) (now - 3600)) (reqId now) now)
        (rlKey org op "day") = s (rlKey org op "day") := by
      rw [storeSet_other _ _ _ _ hneDH, storeSet_other _ _ _ _ hneDM]
    have hd := check_limit_deny (storeSet (storeSet s (rlKey org op "minute")
          (zaddList (pruneWindow (s (rlKey org op "minute")) (now - 60)) (reqId now) now))
        (rlKey org op "hour")
        (zaddList (pruneWindow (storeSet s (rlKey org op "minute")
            (zaddList (pruneWindow (s (rlKey org op "minute")) (now - 60)) (reqId now) now)
            (rlKey org op "hour")) (now - 3600)) (reqId now) now))
      (rlKey org op "day") cfg.requests_per_day 86400 now d0
      (by rw [hsd]; exact hc) (by rw [hsd]; exact hmin)
    simp [check_rate_limit, hm, hh, hd]
  · exact ⟨by decide, by decide, by decide, by decide, by decide, by decide,
      by decide, by decide, by decide⟩

/-- A store whose minute window for `("o", "llm_call")` already holds three
markers. -/
def denyStoreM : RLStore := fun k =>
  if k = rlKey "o" "llm_call" "minute" then [("a", 50), ("b", 55), ("c", 58)] else []

/-- `requests_per_hour = 1` alongside `requests_per_minute = 3`. -/
def cfgHour : RateLimitConfig := { requests_per_minute := 3, requests_per_hour := 1 }

/-- A store whose hour window for `("o", "llm_call")` holds one marker. -/
def denyStoreH : RLStore := fun k =>
  if k = rlKey "o" "llm_call" "hour" then [("a", 50)] else []

/-- `requests_per_day = 1` with roomy minute and hour ceilings. -/
def cfgDay : RateLimitConfig :=
  { requests_per_minute := 3, requests_per_hour := 1000, requests_per_day := 1 }

/-- A store whose day window for `("o", "llm_call")` holds one marker. -/
def denyStoreD : RLStore := fun k =>
  if k = rlKey "o" "llm_call" "day" then [("a", 50)] else []

/-- Witness for `check_rate_limit_window_order`: concrete denials from each
of the three windows, plus the `retry_after ≥ 1` floor. -/
theorem check_rate_limit_window_order_witness :
    ((check_rate_limit goodRedis rl3cfg denyStoreM "o" "llm_call" 100).1 = false ∧
     (check_rate_limit goodRedis rl3cfg denyStoreM "o" "llm_call" 100).2.1 =
       some (max 1 ((50 : Int) + 60 - 100))) ∧
    ((check_rate_limit goodRedis cfgHour denyStoreH "o" "llm_call" 100).1 = false ∧
     (check_rate_limit goodRedis cfgHour denyStoreH "o" "llm_call" 100).2.1 =
       some (max 1 ((50 : Int) + 3600 - 100))) ∧
    ((check_rate_limit goodRedis cfgDay denyStoreD "o" "llm_call" 100).1 = false ∧
     (check_rate_limit goodRedis cfgDay denyStoreD "o" "llm_call" 100).2.1 =
       some (max 1 ((50 : Int) + 86400 - 100))) ∧
    (1 : Int) ≤ max 1 (-5 : Int) := by
  refine ⟨?_, ?_, ?_, check_rate_limit_window_order.2.2.2.1 (-5)⟩
  · exact check_rate_limit_window_order.1 rl3cfg denyStoreM "o" "llm_call" 100 50
      (by decide) (by decide)
  · exact check_rate_limit_window_order.2.1 cfgHour denyStoreH "o" "llm_call" 100 50
      (by decide) (by decide) (by decide)
  · exact check_rate_limit_window_order.2.2.1 cfgDay denyStoreD "o" "llm_call" 100 50
      (by decide) (by decide) (by decide) (by decide)

/-! ## C10 — a denied call still consumes finer-window quota -/

/-- C10: a `check_rate_limit` call denied by the hour ceiling has already
inserted this request's marker into the minute window, and a call denied by
the day ceiling has inserted it into both the minute and hour windows; no
denial removes those markers. -/
theorem rate_limit_denial_not_atomic :
    (∀ (cfg : RateLimitConfig) (s : RLStore) (org op : String) (now h0 : Int),
      (pruneWindow (s (rlKey org op "minute")) (now - 60)).length <
        cfg.requests_per_minute →
      cfg.requests_per_hour ≤
        (pruneWindow (s (rlKey org op "hour")) (now - 3600)).length →
      scoresMin (pruneWindow (s (rlKey org op "hour")) (now - 3600)) = some h0 →
      (check_rate_limit goodRedis cfg s org op now).1 = false ∧
      (check_rate_limit goodRedis cfg s org op now).2.2 (rlKey org op "minute") =
        zaddList (pruneWindow (s (rlKey org op "minute")) (now - 60)) (reqId now) now ∧
      (reqId now, now) ∈
        (check_rate_limit goodRedis cfg s org op now).2.2 (rlKey org op "minute")) ∧
    (∀ (cfg : RateLimitConfig) (s : RLStore) (org op : String) (now d0 : Int),
      (pruneWindow (s (rlKey org op "minute")) (now - 60)).length <
        cfg.requests_per_minute →
      (pruneWindow (s (rlKey org op "hour")) (now - 3600)).length <
        cfg.requests_per_hour →
      cfg.requests_per_day ≤
        (pruneWindow (s (rlKey org op "day")) (now - 86400)).length →
      scoresMin (pruneWindow (s (rlKey org op "day")) (now - 86400)) = some d0 →
      (check_rate_limit goodRedis cfg s org op now).1 = false ∧
      (reqId now, now) ∈
        (check_rate_limit goodRedis cfg s org op now).2.2 (rlKey org op "minute") ∧
      (reqId now, now) ∈
        (check_rate_limit goodRedis cfg s org op now).2.2 (rlKey org op "hour")) := by
  constructor
  · intro cfg s org op now h0 hmA hc hmin
    have hm := check_limit_allow s (rlKey org op "minute")
      cfg.requests_per_minute 60 now hmA
    have hneHM : rlKey org op "hour" ≠ rlKey org op "minute" :=
      rlKey_ne org op (by decide)
    have hneMH : rlKey org op "minute" ≠ rlKey org op "hour" :=
      rlKey_ne org op (by decide)
    have hsh : storeSet s (rlKey org op "minute")
        (zaddList (pruneWindow (s (rlKey org op "minute")) (now - 60)) (reqId now) now)
        (rlKey org op "hour") = s (rlKey org op "hour") :=
      storeSet_other _ _ _ _ hneHM
    have hh := check_limit_deny (storeSet s (rlKey org op "minute")
        (zaddList (pruneWindow (s (rlKey org op "minute")) (now - 60)) (reqId now) now))
      (rlKey org op "hour") cfg.requests_per_hour 3600 now h0
      (by rw [hsh]; exact hc) (by rw [hsh]; exact hmin)
    have hres : check_rate_limit goodRedis cfg s org op now =
        (false, some (max 1 (h0 + 3600 - now)),
          storeSet (storeSet s (rlKey org op "minute")
              (zaddList (pruneWindow (s (rlKey org op "minute")) (now - 60)) (reqId now) now))
            (rlKey org op "hour")
            (pruneWindow (storeSet s (rlKey org op "minute")
              (zaddList (pruneWindow (s (rlKey org op "minute")) (now - 60)) (reqId now) now)
              (rlKey org op "hour")) (now - 3600))) := by
      simp [check_rate_limit, hm, hh]
    rw [hres]
    have hstate : (storeSet (storeSet s (rlKey org op "minute")
          (zaddList (pruneWindow (s (rlKey org op "minute")) (now - 60)) (reqId now) now))
        (rlKey org op "hour")
        (pruneWindow (storeSet s (rlKey org op "minute")
          (zaddList (pruneWindow (s (rlKey org op "minute")) (now - 60)) (reqId now) now)
          (rlKey org op "hour")) (now - 3600))) (rlKey org op "minute") =
        zaddList (pruneWindow (s (rlKey org op "minute")) (now - 60)) (reqId now) now := by
      rw [storeSet_other _ _ _ _ hneMH, storeSet_same]
    refine ⟨rfl, hstate, ?_⟩
    rw [show (false, some (max 1 (h0 + 3600 - now)),
        storeSet (storeSet s (rlKey org op "minute")
            (zaddList (pruneWindow (s (rlKey org op "minute")) (now - 60)) (reqId now) now))
          (rlKey org op "hour")
          (pruneWindow (storeSet s (rlKey org op "minute")
            (zaddList (pruneWindow (s (rlKey org op "minute")) (now - 60)) (reqId now) now)
            (rlKey org op "hour")) (now - 3600))).2.2 (rlKey org op "minute") =
        zaddList (pruneWindow (s (rlKey org op "minute")) (now - 60)) (reqId now) now
      from hstate]
    exact zaddList_mem _ _ _
  · intro cfg s org op now d0 hmA hhA hc hmin
    have hm := check_limit_allow s (rlKey org op "minute")
      cfg.requests_per_minute 60 now hmA
    have hneHM : rlKey org op "hour" ≠ rlKey org op "minute" :=
      rlKey_ne org op (by decide)
    have hneMH : rlKey org op "minute" ≠ rlKey org op "hour" :=
      rlKey_ne org op (by decide)
    have hneDM : rlKey org op "day" ≠ rlKey org op "minute" :=
      rlKey_ne org op (by decide)
    have hneMD : rlKey org op "minute" ≠ rlKey org op "day" :=
      rlKey_ne org op (by decide)
    have hneDH : rlKey org op "day" ≠ rlKey org op "hour" :=
      rlKey_ne org op (by decide)
    have hneHD : rlKey org op "hour" ≠ rlKey org op "day" :=
      rlKey_ne org op (by decide)
    have hsh : storeSet s (rlKey org op "minute")
        (zaddList (pruneWindow (s (rlKey org op "minute")) (now - 60)) (reqId now) now)
        (rlKey org op "hour") = s (rlKey org op "hour") :=
      storeSet_other _ _ _ _ hneHM
    have hh := check_limit_allow (storeSet s (rlKey org op "minute")
        (zaddList (pruneWindow (s (rlKey org op "minute")) (now - 60)) (reqId now) now))
      (rlKey org op "hour") cfg.requests_per_hour 3600 now (by rw [hsh]; exact hhA)
    have hsd : storeSet (storeSet s (rlKey org op "minute")
          (zaddList (pruneWindow (s (rlKey org op "minute")) (now - 60)) (reqId now) now))
        (rlKey org op "hour")
        (zaddList (pruneWindow (storeSet s (rlKey org op "minute")
            (zaddList (pruneWindow (s (rlKey org op "minute")) (now - 60)) (reqId now) now)
            (rlKey org op "hour")) (now - 3600)) (reqId now) now)
        (rlKey org op "day") = s (rlKey org op "day") := by
      rw [storeSet_other _ _ _ _ hneDH, storeSet_other _ _ _ _ hneDM]
    have hd := check_limit_deny (storeSet (storeSet s (rlKey org op "minute")
          (zaddList (pruneWindow (s (rlKey org op "minute")) (now - 60)) (reqId now) now))
        (rlKey org op "hour")
        (zaddList (pruneWindow (storeSet s (rlKey org op "minute")
            (zaddList (pruneWindow (s (rlKey org op "minute")) (now - 60)) (reqId now) now)
            (rlKey org op "hour")) (now - 3600)) (reqId now) now))
      (rlKey org op "day") cfg.requests_per_day 86400 now d0
      (by rw [hsd]; exact hc) (by rw [hsd]; exact hmin)
    have hres : check_rate_limit goodRedis cfg s org op now =
        (false, some (max 1 (d0 + 86400 - now)),
          storeSet (storeSet (storeSet s (rlKey org op "minute")
              (zaddList (pruneWindow (s (rlKey org op "minute")) (now - 60)) (reqId now) now))
            (rlKey org op "hour")
            (zaddList (pruneWindow (storeSet s (rlKey org op "minute")
                (zaddList (pruneWindow (s (rlKey org op "minute")) (now - 60)) (reqId now) now)
                (rlKey org op "hour")) (now - 3600)) (reqId now) now))
          (rlKey org op "day")
          (pruneWindow (storeSet (storeSet s (rlKey org op "minute")
              (zaddList (pruneWindow (s (rlKey org op "minute")) (now - 60)) (reqId now) now))
            (rlKey org op "hour")
            (zaddList (pruneWindow (storeSet s (rlKey org op "minute")
                (zaddList (pruneWindow (s (rlKey org op "minute")) (now - 60)) (reqId now) now)
                (rlKey org op "hour")) (now - 3600)) (reqId now) now)
            (rlKey org op "day")) (now - 86400))) := by
      simp [check_rate_limit, hm, hh, hd]
    rw [hres]
    refine ⟨rfl, ?_, ?_⟩
    · show (reqId now, now) ∈ (storeSet _ (rlKey org op "day") _) (rlKey org op "minute")
      rw [storeSet_other _ _ _ _ hneMD, storeSet_other _ _ _ _ hneMH, storeSet_same]
      exact zaddList_mem _ _ _
    · show (reqId now, now) ∈ (storeSet _ (rlKey org op "day") _) (rlKey org op "hour")
      rw [storeSet_other _ _ _ _ hneHD, storeSet_same]
      exact zaddList_mem _ _ _

/-- Witness for `rate_limit_denial_not_atomic`: concrete hour-ceiling and
day-ceiling denials whose minute (and hour) windows keep the new marker. -/
theorem rate_limit_denial_not_atomic_witness :
    ((check_rate_limit goodRedis cfgHour denyStoreH "o" "llm_call" 100).1 = false ∧
     (reqId 100, (100 : Int)) ∈
       (check_rate_limit goodRedis cfgHour denyStoreH "o" "llm_call" 100).2.2
         (rlKey "o" "llm_call" "minute")) ∧
    ((check_rate_limit goodRedis cfgDay denyStoreD "o" "llm_call" 100).1 = false ∧
     (reqId 100, (100 : Int)) ∈
       (check_rate_limit goodRedis cfgDay denyStoreD "o" "llm_call" 100).2.2
         (rlKey "o" "llm_call" "minute") ∧
     (reqId 100, (100 : Int)) ∈
       (check_rate_limit goodRedis cfgDay denyStoreD "o" "llm_call" 100).2.2
         (rlKey "o" "llm_call" "hour")) := by
  have h1 := rate_limit_denial_not_atomic.1 cfgHour denyStoreH "o" "llm_call" 100 50
    (by decide) (by decide) (by decide)
  have h2 := rate_limit_denial_not_atomic.2 cfgDay denyStoreD "o" "llm_call" 100 50
    (by decide) (by decide) (by decide) (by decide)
  exact ⟨⟨h1.1, h1.2.2⟩, h2⟩

end Jumla
